import Mathlib

/-!
Verification of the pf backend of cs-firewall-bouncer (src/pf.go) and the
unsupported-platform backend constructor stubs (src/unnamed/part_000).

The Go code is shallowly embedded: every external effect (running pfctl and
capturing its combined output, `os.Stat` on the pf device, `exec.LookPath`,
`time.ParseDuration`) is an oracle packed into an `OsEnv` record, and every
operation returns, next to its Go return value (`Except String Unit`, where
`Except.ok` is a nil Go error), the list of external tool invocations it
performed and the list of log entries it emitted (`Effects`).  Log entries
are modelled as a datatype carrying the formatted arguments of each logging
call site verbatim.
-/

/-- `charsLeading pat s`: `pat` is a leading segment of `s` (character list
version of a prefix test, used to build the substring test below). -/
def charsLeading : List Char → List Char → Bool
  | [], _ => true
  | _ :: _, [] => false
  | a :: pa, b :: sb => a == b && charsLeading pa sb

/-- `charsInside pat s`: `pat` occurs contiguously somewhere inside `s`. -/
def charsInside (pat : List Char) : List Char → Bool
  | [] => charsLeading pat []
  | b :: t => charsLeading pat (b :: t) || charsInside pat t

/-- Go `strings.Contains(s, sub)`: `sub` occurs as a substring of `s`. -/
def strContains (s sub : String) : Bool :=
  charsInside sub.toList s.toList

/-- The result of one `exec.Cmd.CombinedOutput()` call: whether the process
exited zero (`ok`), the captured combined stdout+stderr (`output`), and the
text of the Go error value when the exit was non-zero (`errMsg`). -/
structure ExecResult where
  ok : Bool
  output : String
  errMsg : String
deriving DecidableEq, Repr

/-- One external tool invocation: the program run and its arguments. -/
structure Invocation where
  prog : String
  args : List String
deriving DecidableEq, Repr

/-- One log entry, one constructor per logging call site in src/pf.go, each
carrying the formatted arguments of that site. -/
inductive LogEntry where
  /-- `log.Infof("Checking pf table: %s", ctx.table)` -/
  | infoCheckingTable (table : String)
  /-- `log.Infof("pf table clean-up : %s", cmd.String())` -/
  | infoCleanup (args : List String)
  /-- `log.Errorf("Error while flushing table (%s): %v - %s", err, out)` -/
  | errorFlushFailed (errMsg : String) (output : String)
  /-- `log.Debugf(addBanFormat, ...)` -/
  | debugAddBan (value : String) (seconds : Int) (scenario : String)
  /-- `log.Debugf("pfctl add : %s", cmd.String())` -/
  | debugAddCmd (args : List String)
  /-- `log.Infof("Error while adding to table (%s): %v --> %s", ...)` -/
  | infoAddFailed (args : List String) (errMsg : String) (output : String)
  /-- `log.Debugf(delBanFormat, ...)` -/
  | debugDelBan (value : String) (seconds : Int) (scenario : String)
  /-- `log.Debugf("pfctl del : %s", cmd.String())` -/
  | debugDelCmd (args : List String)
  /-- `log.Infof("Error while deleting from table (%s): %v --> %s", ...)` -/
  | infoDelFailed (args : List String) (errMsg : String) (output : String)
  /-- `log.Debugf("not adding because ipv6 is disabled")` with the value -/
  | debugNotAdding (value : String)
  /-- `log.Debugf("not removing because ipv6 is disabled")` with the value -/
  | debugNotRemoving (value : String)
  /-- `log.Printf("pf for ipv4 initiated")` -/
  | printfIpv4Initiated
  /-- `log.Printf("pf for ipv6 initiated")` -/
  | printfIpv6Initiated
  /-- `log.Infof("flushing 'crowdsec' table(s)")` -/
  | infoFlushingTables
deriving DecidableEq, Repr

/-- The external effects one call performed, in order. -/
structure Effects where
  invocations : List Invocation
  logs : List LogEntry
deriving DecidableEq, Repr

instance : Append Effects :=
  ⟨fun a b => ⟨a.invocations ++ b.invocations, a.logs ++ b.logs⟩⟩

theorem Effects.append_invocations (a b : Effects) :
    (a ++ b).invocations = a.invocations ++ b.invocations := rfl

theorem Effects.append_logs (a b : Effects) :
    (a ++ b).logs = a.logs ++ b.logs := rfl

/-- The operating-system environment the backend runs against:
`run args` is the `ExecResult` of `exec.Command(pfctlCmd, args...)`;
`deviceExists` is whether `os.Stat(pfDevice)` succeeds and `statErrMsg` the
error text when it does not; `pfctlOnPath` is whether `exec.LookPath(pfctlCmd)`
succeeds and `lookPathErrMsg` the error text when it does not;
`parseDuration` is Go `time.ParseDuration` (nanoseconds on success). -/
structure OsEnv where
  run : List String → ExecResult
  deviceExists : Bool
  statErrMsg : String
  pfctlOnPath : Bool
  lookPathErrMsg : String
  parseDuration : String → Except String Int

/-- Go `models.Decision`, the fields the pf backend reads (all accessed
through non-nil pointers in the source). -/
structure Decision where
  value : String
  duration : String
  scenario : String
deriving DecidableEq, Repr

/-- src/pf.go lines 19-22. -/
structure pfContext where
  proto : String
  table : String
deriving DecidableEq, Repr

/-- src/pf.go lines 24-27: `inet6` is a nil-able pointer, `inet` is always
set by `newPF` before use. -/
structure pf where
  inet : pfContext
  inet6 : Option pfContext
deriving DecidableEq, Repr

def backendName : String := "pf"

def pfctlCmd : String := "/sbin/pfctl"

def pfDevice : String := "/dev/pf"

/-- src/pf.go lines 19-22 as constructed by `newPF`. -/
structure bouncerConfig where
  DisableIPV6 : Bool
deriving DecidableEq, Repr

/-- src/pf.go lines 41-63: `newPF` always returns the backend and a nil
error; the inet context is always set, the inet6 context only when
`DisableIPV6` is false. -/
def newPF (config : bouncerConfig) : Option pf × Option String :=
  let inetCtx : pfContext := ⟨"inet", "crowdsec-blacklists"⟩
  let inet6Ctx : pfContext := ⟨"inet6", "crowdsec6-blacklists"⟩
  if config.DisableIPV6 then
    (some ⟨inetCtx, none⟩, none)
  else
    (some ⟨inetCtx, some inet6Ctx⟩, none)

/-- src/pf.go lines 65-78: `pfctl -s Tables`, error when the invocation
fails or when its output does not contain the table name. -/
def pfContext.checkTable (env : OsEnv) (ctx : pfContext) :
    Except String Unit × Effects :=
  let logs := [LogEntry.infoCheckingTable ctx.table]
  let args := ["-s", "Tables"]
  let out := env.run args
  let eff : Effects := ⟨[⟨pfctlCmd, args⟩], logs⟩
  if out.ok = false then
    (Except.error ("pfctl error : " ++ out.errMsg ++ " - " ++ out.output), eff)
  else if strContains out.output ctx.table = false then
    (Except.error ("table " ++ ctx.table ++ " doesn\'t exist"), eff)
  else
    (Except.ok (), eff)

/-- src/pf.go lines 80-87: `pfctl -t <table> -T flush`; a failure is logged
and `nil` is returned regardless. -/
def pfContext.shutDown (env : OsEnv) (ctx : pfContext) :
    Except String Unit × Effects :=
  let args := ["-t", ctx.table, "-T", "flush"]
  let logs0 := [LogEntry.infoCleanup args]
  let out := env.run args
  let logs :=
    if out.ok = false then logs0 ++ [LogEntry.errorFlushFailed out.errMsg out.output]
    else logs0
  (Except.ok (), ⟨[⟨pfctlCmd, args⟩], logs⟩)

/-- src/pf.go lines 89-101: parse the duration (returning its error on
failure, before any invocation), then `pfctl -t <table> -T add <value>`;
a non-zero exit is logged and `nil` returned. -/
def pfContext.Add (env : OsEnv) (ctx : pfContext) (d : Decision) :
    Except String Unit × Effects :=
  match env.parseDuration d.duration with
  | Except.error e => (Except.error e, ⟨[], []⟩)
  | Except.ok banDuration =>
    let args := ["-t", ctx.table, "-T", "add", d.value]
    let logs0 := [LogEntry.debugAddBan d.value (Int.tdiv banDuration 1000000000) d.scenario,
                  LogEntry.debugAddCmd args]
    let out := env.run args
    let logs :=
      if out.ok = false then logs0 ++ [LogEntry.infoAddFailed args out.errMsg out.output]
      else logs0
    (Except.ok (), ⟨[⟨pfctlCmd, args⟩], logs⟩)

/-- src/pf.go lines 103-115: symmetric to `pfContext.Add`, with `delete`. -/
def pfContext.Delete (env : OsEnv) (ctx : pfContext) (d : Decision) :
    Except String Unit × Effects :=
  match env.parseDuration d.duration with
  | Except.error e => (Except.error e, ⟨[], []⟩)
  | Except.ok banDuration =>
    let args := ["-t", ctx.table, "-T", "delete", d.value]
    let logs0 := [LogEntry.debugDelBan d.value (Int.tdiv banDuration 1000000000) d.scenario,
                  LogEntry.debugDelCmd args]
    let out := env.run args
    let logs :=
      if out.ok = false then logs0 ++ [LogEntry.infoDelFailed args out.errMsg out.output]
      else logs0
    (Except.ok (), ⟨[⟨pfctlCmd, args⟩], logs⟩)

/-- src/pf.go lines 117-147.  Note that the source really does call
`pf.inet.shutDown` and `pf.inet.checkTable` again inside the
`pf.inet6 != nil` block (lines 137 and 140). -/
def pf.Init (env : OsEnv) (b : pf) : Except String Unit × Effects :=
  if env.deviceExists = false then
    (Except.error (pfDevice ++ " device not found: " ++ env.statErrMsg), ⟨[], []⟩)
  else if env.pfctlOnPath = false then
    (Except.error (pfctlCmd ++ " command not found: " ++ env.lookPathErrMsg), ⟨[], []⟩)
  else
    match pfContext.shutDown env b.inet with
    | (Except.error s, e1) => (Except.error ("pf table flush failed: " ++ s), e1)
    | (Except.ok _, e1) =>
      match pfContext.checkTable env b.inet with
      | (Except.error s, e2) => (Except.error ("pf init failed: " ++ s), e1 ++ e2)
      | (Except.ok _, e2) =>
        let e3 : Effects := ⟨[], [LogEntry.printfIpv4Initiated]⟩
        match b.inet6 with
        | none => (Except.ok (), e1 ++ e2 ++ e3)
        | some _ =>
          match pfContext.shutDown env b.inet with
          | (Except.error s, e4) =>
            (Except.error ("pf shutdown failed: " ++ s), e1 ++ e2 ++ e3 ++ e4)
          | (Except.ok _, e4) =>
            match pfContext.checkTable env b.inet with
            | (Except.error s, e5) =>
              (Except.error ("pf init failed: " ++ s), e1 ++ e2 ++ e3 ++ e4 ++ e5)
            | (Except.ok _, e5) =>
              (Except.ok (),
                e1 ++ e2 ++ e3 ++ e4 ++ e5 ++ ⟨[], [LogEntry.printfIpv6Initiated]⟩)

/-- src/pf.go lines 149-166.  Note the outer condition is
`strings.Contains(value, ":") && pf.inet6 != nil`, so its inner
`pf.inet6 == nil` branch is dead and a value with a colon falls to the
`else` (inet) branch when inet6 is nil. -/
def pf.Add (env : OsEnv) (b : pf) (d : Decision) : Except String Unit × Effects :=
  if strContains d.value ":" && b.inet6.isSome then
    match b.inet6 with
    | some ctx6 =>
      match pfContext.Add env ctx6 d with
      | (Except.error _, eff) =>
        (Except.error ("failed to add ban ip " ++ d.value ++ " to inet6 table"), eff)
      | (Except.ok _, eff) => (Except.ok (), eff)
    | none => (Except.ok (), ⟨[], [LogEntry.debugNotAdding d.value]⟩)
  else
    match pfContext.Add env b.inet d with
    | (Except.error _, eff) =>
      (Except.error ("failed adding ban ip " ++ d.value ++ " to inet table"), eff)
    | (Except.ok _, eff) => (Except.ok (), eff)

/-- src/pf.go lines 168-185.  (The error message of the inet branch says
"inet6" in the source, line 180; kept as is.) -/
def pf.Delete (env : OsEnv) (b : pf) (d : Decision) : Except String Unit × Effects :=
  if strContains d.value ":" then
    match b.inet6 with
    | some ctx6 =>
      match pfContext.Delete env ctx6 d with
      | (Except.error _, eff) =>
        (Except.error ("failed to remove ban ip " ++ d.value ++ " from inet6 table"), eff)
      | (Except.ok _, eff) => (Except.ok (), eff)
    | none => (Except.ok (), ⟨[], [LogEntry.debugNotRemoving d.value]⟩)
  else
    match pfContext.Delete env b.inet d with
    | (Except.error _, eff) =>
      (Except.error ("failed to remove ban ip " ++ d.value ++ " from inet6 table"), eff)
    | (Except.ok _, eff) => (Except.ok (), eff)

/-- src/pf.go lines 187-201. -/
def pf.ShutDown (env : OsEnv) (b : pf) : Except String Unit × Effects :=
  let e0 : Effects := ⟨[], [LogEntry.infoFlushingTables]⟩
  match pfContext.shutDown env b.inet with
  | (Except.error _, e1) =>
    (Except.error ("unable to flush inet table (" ++ b.inet.table ++ "): "), e0 ++ e1)
  | (Except.ok _, e1) =>
    match b.inet6 with
    | none => (Except.ok (), e0 ++ e1)
    | some ctx6 =>
      match pfContext.shutDown env ctx6 with
      | (Except.error _, e2) =>
        (Except.error ("unable to flush inet table (" ++ b.inet.table ++ "): "), e0 ++ e1 ++ e2)
      | (Except.ok _, e2) => (Except.ok (), e0 ++ e1 ++ e2)

/-- `cfg.BouncerConfig` as seen by the non-Linux constructor stubs of
src/unnamed/part_000: the stubs never read it, so its fields are irrelevant
and it is modelled as an abstract token. -/
structure CfgBouncerConfig where
  mk ::
deriving DecidableEq, Repr

/-- `types.Backend`, the six-method interface; the non-Linux stubs only ever
produce the nil pointer, modelled as `none : Option Backend`. -/
inductive Backend : Type where
deriving DecidableEq

/-- src/unnamed/part_000 lines 11-13: the non-Linux nftables constructor
returns `(nil, nil)`. -/
def NewNFTables (_config : CfgBouncerConfig) : Option Backend × Option String :=
  (none, none)

/-- src/unnamed/part_000 lines 42-44: the non-Linux iptables constructor
returns `(nil, nil)`. -/
def NewIPTables (_config : CfgBouncerConfig) : Option Backend × Option String :=
  (none, none)

/-! ### Concrete fixtures used by the closed theorems and witnesses -/

/-- Fixture duration parser: "4h" parses (4h = 14400000000000 ns), anything
else fails the way `time.ParseDuration` does. -/
def parse4h : String → Except String Int := fun s =>
  if s = "4h" then Except.ok 14400000000000
  else Except.error ("time: invalid duration " ++ s)

/-- Fixture: every invocation exits zero and lists both tables. -/
def envAllOk : OsEnv :=
  ⟨fun _ => ⟨true, "crowdsec-blacklists crowdsec6-blacklists", ""⟩,
   true, "", true, "", parse4h⟩

/-- Fixture: the pf device is missing. -/
def envNoDevice : OsEnv :=
  ⟨fun _ => ⟨true, "crowdsec-blacklists crowdsec6-blacklists", ""⟩,
   false, "stat /dev/pf: no such file or directory", true, "", parse4h⟩

/-- Fixture: the device exists but pfctl is not on the search path. -/
def envNoPfctl : OsEnv :=
  ⟨fun _ => ⟨true, "crowdsec-blacklists crowdsec6-blacklists", ""⟩,
   true, "", false, "exec: no such file or directory", parse4h⟩

/-- Fixture: every invocation exits non-zero with captured output. -/
def envRunFails : OsEnv :=
  ⟨fun _ => ⟨false, "pfctl: Table does not exist", "exit status 1"⟩,
   true, "", true, "", parse4h⟩

/-- Fixture: invocations exit zero but the table listing names no table. -/
def envTableMissing : OsEnv :=
  ⟨fun _ => ⟨true, "no tables here", ""⟩, true, "", true, "", parse4h⟩

/-- Fixture: invocations exit non-zero yet their captured output still
lists both tables. -/
def envCmdFailsWithListing : OsEnv :=
  ⟨fun _ => ⟨false, "crowdsec-blacklists crowdsec6-blacklists", "exit status 1"⟩,
   true, "", true, "", parse4h⟩

/-- An IPv4-valued decision (no colon). -/
def decisionV4 : Decision := ⟨"203.0.113.7", "4h", "bruteforce"⟩

/-- An IPv6-valued decision (contains a colon). -/
def decisionV6 : Decision := ⟨"2001:db8::1", "4h", "bruteforce"⟩

/-- An IPv4-valued decision with an unparseable duration. -/
def decisionBadDur : Decision := ⟨"203.0.113.7", "not-a-duration", "bruteforce"⟩

/-- An IPv6-valued decision with an unparseable duration. -/
def decisionV6BadDur : Decision := ⟨"2001:db8::1", "not-a-duration", "bruteforce"⟩

/-- The backend `newPF` builds when `DisableIPV6` is true. -/
def pfV4Only : pf := ⟨⟨"inet", "crowdsec-blacklists"⟩, none⟩

/-- The backend `newPF` builds when `DisableIPV6` is false. -/
def pfDual : pf :=
  ⟨⟨"inet", "crowdsec-blacklists"⟩, some ⟨"inet6", "crowdsec6-blacklists"⟩⟩

/-! ### The claims -/

/-- C1 (code bug, evaluation at the failing input): with the IPv6 context
absent, an IPv6-valued decision is NOT silently dropped by `pf.Add`: the
outer condition `strContains value ":" && inet6.isSome` is false, so the
decision falls into the inet branch and one pfctl invocation is issued
against the IPv4 table (the call does return success).  `pf.Delete`, whose
outer condition omits the `inet6.isSome` conjunct, conforms to the claim:
success and no invocation. -/
theorem add_ipv6_value_routed_to_inet_when_ipv6_disabled :
    (pf.Add envAllOk pfV4Only decisionV6).1 = Except.ok () ∧
    (pf.Add envAllOk pfV4Only decisionV6).2.invocations =
      [⟨pfctlCmd, ["-t", "crowdsec-blacklists", "-T", "add", "2001:db8::1"]⟩] ∧
    (pf.Delete envAllOk pfV4Only decisionV6).1 = Except.ok () ∧
    (pf.Delete envAllOk pfV4Only decisionV6).2.invocations = [] := by
  refine ⟨rfl, by decide, rfl, by decide⟩

/-- C2 (code bug, evaluation at the failing input): with the IPv6 context
present, `pf.Init` flushes and table-checks `pf.inet` a second time instead
of `pf.inet6`: all four invocations target the IPv4 table
"crowdsec-blacklists" and none mentions "crowdsec6-blacklists". -/
theorem init_ipv6_block_reuses_inet_context :
    (pf.Init envAllOk pfDual).1 = Except.ok () ∧
    (pf.Init envAllOk pfDual).2.invocations =
      [⟨pfctlCmd, ["-t", "crowdsec-blacklists", "-T", "flush"]⟩,
       ⟨pfctlCmd, ["-s", "Tables"]⟩,
       ⟨pfctlCmd, ["-t", "crowdsec-blacklists", "-T", "flush"]⟩,
       ⟨pfctlCmd, ["-s", "Tables"]⟩] ∧
    ((pf.Init envAllOk pfDual).2.invocations.all
      (fun inv => !(inv.args.contains "crowdsec6-blacklists"))) = true := by
  refine ⟨rfl, by decide, by decide⟩

/-- C9: on non-Linux platforms both backend constructors return a nil
backend and a nil error, for every configuration. -/
theorem stub_constructors_return_nil_nil (config : CfgBouncerConfig) :
    NewNFTables config = (none, none) ∧ NewIPTables config = (none, none) :=
  ⟨rfl, rfl⟩

/-- C10: `newPF` always returns a non-nil backend and a nil error; the
backend's inet context is `⟨"inet", "crowdsec-blacklists"⟩` and its inet6
context is `⟨"inet6", "crowdsec6-blacklists"⟩` exactly when `DisableIPV6`
is false (and absent otherwise). -/
theorem newPF_shape (config : bouncerConfig) :
    newPF config =
      (some ⟨⟨"inet", "crowdsec-blacklists"⟩,
         if config.DisableIPV6 then none else some ⟨"inet6", "crowdsec6-blacklists"⟩⟩,
       none)
    ∧ ∀ b, (newPF config).1 = some b →
        (b.inet6.isSome = true ↔ config.DisableIPV6 = false) := by
  cases hc : config.DisableIPV6 <;> simp [newPF, hc]

/-- Witness for C10 at a concrete configuration. -/
theorem newPF_shape_witness :
    ((pfDual : pf).inet6.isSome = true ↔
      (bouncerConfig.mk false).DisableIPV6 = false) :=
  (newPF_shape ⟨false⟩).2 pfDual rfl

/-- C3: a decision routed to an enabled family context issues exactly one
invocation, against that context\'s own table: an IPv4-valued decision (no
colon) produces exactly one add/delete invocation on the inet table, and an
IPv6-valued decision with the inet6 context present produces exactly one
add/delete invocation on the inet6 table (in particular, never the other
family\'s table). -/
theorem routed_decision_single_invocation_own_table
    (env : OsEnv) (b : pf) (d : Decision) (n : Int)
    (hdur : env.parseDuration d.duration = Except.ok n) :
    (strContains d.value ":" = false →
      (pf.Add env b d).2.invocations =
        [⟨pfctlCmd, ["-t", b.inet.table, "-T", "add", d.value]⟩] ∧
      (pf.Delete env b d).2.invocations =
        [⟨pfctlCmd, ["-t", b.inet.table, "-T", "delete", d.value]⟩])
    ∧ (∀ ctx6, b.inet6 = some ctx6 → strContains d.value ":" = true →
      (pf.Add env b d).2.invocations =
        [⟨pfctlCmd, ["-t", ctx6.table, "-T", "add", d.value]⟩] ∧
      (pf.Delete env b d).2.invocations =
        [⟨pfctlCmd, ["-t", ctx6.table, "-T", "delete", d.value]⟩]) := by
  constructor
  · intro hv
    constructor
    · simp [pf.Add, pfContext.Add, hv, hdur]
    · simp [pf.Delete, pfContext.Delete, hv, hdur]
  · intro ctx6 h6 hv
    constructor
    · simp [pf.Add, pfContext.Add, h6, hv, hdur]
    · simp [pf.Delete, pfContext.Delete, h6, hv, hdur]

/-- Witness for C3: the IPv6-enabled backend routes an IPv6-valued decision
to exactly one invocation on the inet6 table. -/
theorem routed_decision_witness :
    envAllOk.parseDuration decisionV6.duration = Except.ok 14400000000000 ∧
    pfDual.inet6 = some ⟨"inet6", "crowdsec6-blacklists"⟩ ∧
    strContains decisionV6.value ":" = true ∧
    (pf.Add envAllOk pfDual decisionV6).2.invocations =
      [⟨pfctlCmd, ["-t", "crowdsec6-blacklists", "-T", "add", "2001:db8::1"]⟩] := by
  refine ⟨rfl, rfl, by decide, ?_⟩
  exact ((routed_decision_single_invocation_own_table envAllOk pfDual decisionV6
    14400000000000 rfl).2 ⟨"inet6", "crowdsec6-blacklists"⟩ rfl (by decide)).1

/-- C4: when the add or delete invocation exits non-zero, the family
context\'s Add/Delete still returns a nil error, and the log contains a
diagnostic carrying the captured combined output. -/
theorem context_add_delete_tolerate_nonzero_exit
    (env : OsEnv) (ctx : pfContext) (d : Decision) (n : Int)
    (hdur : env.parseDuration d.duration = Except.ok n)
    (haf : (env.run ["-t", ctx.table, "-T", "add", d.value]).ok = false)
    (hdf : (env.run ["-t", ctx.table, "-T", "delete", d.value]).ok = false) :
    ((pfContext.Add env ctx d).1 = Except.ok () ∧
      LogEntry.infoAddFailed ["-t", ctx.table, "-T", "add", d.value]
          (env.run ["-t", ctx.table, "-T", "add", d.value]).errMsg
          (env.run ["-t", ctx.table, "-T", "add", d.value]).output
        ∈ (pfContext.Add env ctx d).2.logs)
    ∧ ((pfContext.Delete env ctx d).1 = Except.ok () ∧
      LogEntry.infoDelFailed ["-t", ctx.table, "-T", "delete", d.value]
          (env.run ["-t", ctx.table, "-T", "delete", d.value]).errMsg
          (env.run ["-t", ctx.table, "-T", "delete", d.value]).output
        ∈ (pfContext.Delete env ctx d).2.logs) := by
  constructor
  · constructor
    · simp [pfContext.Add, hdur]
    · simp [pfContext.Add, hdur, haf]
  · constructor
    · simp [pfContext.Delete, hdur]
    · simp [pfContext.Delete, hdur, hdf]

/-- Witness for C4 at a failing environment. -/
theorem context_add_tolerates_witness :
    envRunFails.parseDuration decisionV4.duration = Except.ok 14400000000000 ∧
    (envRunFails.run ["-t", "crowdsec-blacklists", "-T", "add", decisionV4.value]).ok = false ∧
    (envRunFails.run ["-t", "crowdsec-blacklists", "-T", "delete", decisionV4.value]).ok = false ∧
    (pfContext.Add envRunFails ⟨"inet", "crowdsec-blacklists"⟩ decisionV4).1 = Except.ok () := by
  refine ⟨rfl, rfl, rfl, ?_⟩
  exact (context_add_delete_tolerate_nonzero_exit envRunFails
    ⟨"inet", "crowdsec-blacklists"⟩ decisionV4 14400000000000 rfl rfl rfl).1.1

/-- Counterexample to C5 as stated: a decision whose duration fails to
parse, whose value contains a colon, against a backend with no inet6
context: `pf.Delete` returns success (the silent IPv6 drop fires before the
duration is ever parsed), not an error. -/
theorem delete_bad_duration_dropped_when_ipv6_disabled :
    (pf.Delete envAllOk pfV4Only decisionV6BadDur).1 = Except.ok () ∧
    (pf.Delete envAllOk pfV4Only decisionV6BadDur).2 =
      ⟨[], [LogEntry.debugNotRemoving "2001:db8::1"]⟩ := by
  exact ⟨rfl, by decide⟩

/-- C5 (amended): when the duration fails to parse, `pf.Add` always returns
an error and performs no invocation; `pf.Delete` does the same except when
the value contains a colon and the inet6 context is absent, in which case
it returns success as the silent drop — and in every case `pf.Delete`
performs no invocation either. -/
theorem bad_duration_rejected_before_invocation
    (env : OsEnv) (b : pf) (d : Decision) (e : String)
    (hdur : env.parseDuration d.duration = Except.error e) :
    ((∃ msg, (pf.Add env b d).1 = Except.error msg) ∧
      (pf.Add env b d).2.invocations = [])
    ∧ (¬(strContains d.value ":" = true ∧ b.inet6 = none) →
        ∃ msg, (pf.Delete env b d).1 = Except.error msg)
    ∧ ((strContains d.value ":" = true ∧ b.inet6 = none) →
        (pf.Delete env b d).1 = Except.ok ())
    ∧ (pf.Delete env b d).2.invocations = [] := by
  refine ⟨⟨?_, ?_⟩, ?_, ?_, ?_⟩
  · cases hv : strContains d.value ":" <;> cases h6 : b.inet6 <;>
      simp [pf.Add, pfContext.Add, hv, h6, hdur]
  · cases hv : strContains d.value ":" <;> cases h6 : b.inet6 <;>
      simp [pf.Add, pfContext.Add, hv, h6, hdur]
  · intro hno
    cases hv : strContains d.value ":" <;> cases h6 : b.inet6 <;>
      simp [pf.Delete, pfContext.Delete, hv, h6, hdur] <;>
      exact absurd ⟨hv, h6⟩ hno
  · intro hyes
    simp [pf.Delete, hyes.1, hyes.2]
  · cases hv : strContains d.value ":" <;> cases h6 : b.inet6 <;>
      simp [pf.Delete, pfContext.Delete, hv, h6, hdur]

/-- Witness for C5 (amended) at a concrete bad-duration decision. -/
theorem bad_duration_witness :
    envAllOk.parseDuration decisionBadDur.duration =
      Except.error "time: invalid duration not-a-duration" ∧
    (pf.Add envAllOk pfDual decisionBadDur).2.invocations = [] := by
  refine ⟨rfl, ?_⟩
  exact (bad_duration_rejected_before_invocation envAllOk pfDual decisionBadDur
    "time: invalid duration not-a-duration" rfl).1.2

/-- C6: `pf.Init` returns an error, with no tool invocation performed, when
the pf device path is missing; when the device exists, a missing pfctl
binary (the path-lookup oracle, not an invocation) also makes `pf.Init`
return an error with no invocation performed. -/
theorem init_preconditions_checked_first (env : OsEnv) (b : pf) :
    (env.deviceExists = false →
      pf.Init env b =
        (Except.error (pfDevice ++ " device not found: " ++ env.statErrMsg), ⟨[], []⟩))
    ∧ (env.deviceExists = true → env.pfctlOnPath = false →
      pf.Init env b =
        (Except.error (pfctlCmd ++ " command not found: " ++ env.lookPathErrMsg), ⟨[], []⟩)) := by
  constructor
  · intro h
    simp [pf.Init, h]
  · intro h1 h2
    simp [pf.Init, h1, h2]

/-- Witness for C6: both precondition failures at concrete environments. -/
theorem init_preconditions_witness :
    (envNoDevice.deviceExists = false ∧
      pf.Init envNoDevice pfV4Only =
        (Except.error (pfDevice ++ " device not found: " ++ envNoDevice.statErrMsg),
         ⟨[], []⟩))
    ∧ (envNoPfctl.deviceExists = true ∧ envNoPfctl.pfctlOnPath = false ∧
      pf.Init envNoPfctl pfV4Only =
        (Except.error (pfctlCmd ++ " command not found: " ++ envNoPfctl.lookPathErrMsg),
         ⟨[], []⟩)) := by
  refine ⟨⟨rfl, ?_⟩, rfl, rfl, ?_⟩
  · exact (init_preconditions_checked_first envNoDevice pfV4Only).1 rfl
  · exact (init_preconditions_checked_first envNoPfctl pfV4Only).2 rfl rfl

/-- Counterexample to C7 as stated: an environment where `pfctl -s Tables`
exits non-zero but its captured output does contain the configured table
name; `checkTable` nevertheless fails, so "succeeds iff the output contains
the table name" does not hold. -/
theorem checkTable_fails_on_nonzero_exit_despite_listing :
    strContains (envCmdFailsWithListing.run ["-s", "Tables"]).output
      "crowdsec-blacklists" = true ∧
    (pfContext.checkTable envCmdFailsWithListing ⟨"inet", "crowdsec-blacklists"⟩).1 =
      Except.error
        ("pfctl error : " ++ (envCmdFailsWithListing.run ["-s", "Tables"]).errMsg
          ++ " - " ++ (envCmdFailsWithListing.run ["-s", "Tables"]).output) := by
  exact ⟨by decide, rfl⟩

/-- C7 (amended): `checkTable` issues exactly the query `pfctl -s Tables`;
it succeeds iff that invocation exits zero AND its captured output contains
the configured table name as a substring; when the invocation exits zero
and the name is absent, the error names the missing table, and `pf.Init`
propagates it as a fatal error. -/
theorem checkTable_success_iff_exit_zero_and_listed (env : OsEnv) (ctx : pfContext) :
    (pfContext.checkTable env ctx).2.invocations = [⟨pfctlCmd, ["-s", "Tables"]⟩]
    ∧ ((pfContext.checkTable env ctx).1 = Except.ok () ↔
        ((env.run ["-s", "Tables"]).ok = true ∧
         strContains (env.run ["-s", "Tables"]).output ctx.table = true))
    ∧ ((env.run ["-s", "Tables"]).ok = true →
        strContains (env.run ["-s", "Tables"]).output ctx.table = false →
        (pfContext.checkTable env ctx).1 =
          Except.error ("table " ++ ctx.table ++ " doesn\'t exist"))
    ∧ (∀ b : pf, b.inet = ctx →
        env.deviceExists = true → env.pfctlOnPath = true →
        (env.run ["-s", "Tables"]).ok = true →
        strContains (env.run ["-s", "Tables"]).output ctx.table = false →
        (pf.Init env b).1 =
          Except.error ("pf init failed: " ++ ("table " ++ ctx.table ++ " doesn\'t exist"))) := by
  refine ⟨?_, ?_, ?_, ?_⟩
  · cases hok : (env.run ["-s", "Tables"]).ok <;>
      cases hc : strContains (env.run ["-s", "Tables"]).output ctx.table <;>
      simp [pfContext.checkTable, hok, hc]
  · cases hok : (env.run ["-s", "Tables"]).ok <;>
      cases hc : strContains (env.run ["-s", "Tables"]).output ctx.table <;>
      simp [pfContext.checkTable, hok, hc]
  · intro hok hc
    simp [pfContext.checkTable, hok, hc]
  · intro b hb h1 h2 hok hc
    subst hb
    simp [pf.Init, pfContext.shutDown, pfContext.checkTable, h1, h2, hok, hc]

/-- Witness for C7 (amended): the missing-table error at a concrete
environment whose listing names no table. -/
theorem checkTable_missing_witness :
    (envTableMissing.run ["-s", "Tables"]).ok = true ∧
    strContains (envTableMissing.run ["-s", "Tables"]).output "crowdsec-blacklists" = false ∧
    (pf.Init envTableMissing pfV4Only).1 =
      Except.error ("pf init failed: " ++ ("table " ++ "crowdsec-blacklists" ++ " doesn\'t exist")) := by
  refine ⟨rfl, by decide, ?_⟩
  exact (checkTable_success_iff_exit_zero_and_listed envTableMissing
    ⟨"inet", "crowdsec-blacklists"⟩).2.2.2 pfV4Only rfl rfl rfl rfl (by decide)

/-- C8: `pf.ShutDown` always returns a nil error and flushes each enabled
family context exactly once — the inet table always, the inet6 table
exactly when present — whatever each flush invocation\'s outcome; a failed
inet flush is logged, never propagated. -/
theorem shutdown_flushes_each_enabled_context_once (env : OsEnv) (b : pf) :
    (pf.ShutDown env b).1 = Except.ok ()
    ∧ (pf.ShutDown env b).2.invocations =
        (match b.inet6 with
         | none => [⟨pfctlCmd, ["-t", b.inet.table, "-T", "flush"]⟩]
         | some ctx6 => [⟨pfctlCmd, ["-t", b.inet.table, "-T", "flush"]⟩,
                         ⟨pfctlCmd, ["-t", ctx6.table, "-T", "flush"]⟩])
    ∧ ((env.run ["-t", b.inet.table, "-T", "flush"]).ok = false →
        LogEntry.errorFlushFailed (env.run ["-t", b.inet.table, "-T", "flush"]).errMsg
            (env.run ["-t", b.inet.table, "-T", "flush"]).output
          ∈ (pf.ShutDown env b).2.logs) := by
  refine ⟨?_, ?_, ?_⟩
  · cases h6 : b.inet6 <;> simp [pf.ShutDown, pfContext.shutDown, h6]
  · cases h6 : b.inet6 <;>
      simp [pf.ShutDown, pfContext.shutDown, h6, Effects.append_invocations]
  · intro hf
    cases h6 : b.inet6 <;>
      simp [pf.ShutDown, pfContext.shutDown, h6, hf, Effects.append_logs]

/-- Witness for C8: a failing flush environment still yields success and
the diagnostic log entry. -/
theorem shutdown_flush_failure_witness :
    (envRunFails.run ["-t", "crowdsec-blacklists", "-T", "flush"]).ok = false ∧
    (pf.ShutDown envRunFails pfV4Only).1 = Except.ok () ∧
    LogEntry.errorFlushFailed "exit status 1" "pfctl: Table does not exist"
      ∈ (pf.ShutDown envRunFails pfV4Only).2.logs := by
  refine ⟨rfl, ?_, ?_⟩
  · exact (shutdown_flushes_each_enabled_context_once envRunFails pfV4Only).1
  · exact (shutdown_flushes_each_enabled_context_once envRunFails pfV4Only).2.2 rfl
